import Mathlib

/-
  Verification of the agent-orchestration engine of this repository:
  the specialist decoder (agent/nodes/specialists.py), the phase router
  (agent/graph.py), the action schema (agent/schemas/action_schema.py),
  the task broker (core/task_broker.py) and the scan-status recording of
  the entry point (lambda_entrypoint.py), embedded shallowly in Lean.
-/

namespace CDA

/-- Python values as they occur in the embedded code: strings, integers,
booleans, lists, dicts (association lists of string keys, first match wins
as in a Python dict, which cannot hold a duplicate key) and `None`. -/
inductive PyVal where
  | str (s : String)
  | int (n : Int)
  | bool (b : Bool)
  | list (xs : List PyVal)
  | dict (kvs : List (String × PyVal))
  | none


/-- Python truthiness (`bool(v)`) for the value forms above: empty string,
zero, empty list, empty dict, `False` and `None` are falsy. -/
def pyTruthy : PyVal → Bool
  | .str s => !s.isEmpty
  | .int n => n != 0
  | .bool b => b
  | .list xs => !xs.isEmpty
  | .dict kvs => !kvs.isEmpty
  | .none => false

/-- `d.get(k)` on the association-list model of a Python dict. -/
def pyGet (kvs : List (String × PyVal)) (k : String) : Option PyVal :=
  match kvs with
  | [] => Option.none
  | (k', v) :: rest => if k' = k then some v else pyGet rest k

/-- `d.get(k, default)`. -/
def pyGetD (kvs : List (String × PyVal)) (k : String) (d : PyVal) : PyVal :=
  (pyGet kvs k).getD d

/-- Does the first char list occur as a leading segment of the second? -/
def charsLeading : List Char → List Char → Bool
  | [], _ => true
  | _ :: _, [] => false
  | p :: ps, c :: cs => p == c && charsLeading ps cs

/-- Does the pattern occur as a contiguous segment of the char list? -/
def charsHave (pat : List Char) : List Char → Bool
  | [] => charsLeading pat []
  | c :: rest => charsLeading pat (c :: rest) || charsHave pat rest

/-- Python substring test `pat in s`, executable by structural recursion. -/
def pyIn (pat s : String) : Bool := charsHave pat.data s.data

/-- Python `s.lower()`. -/
def pyLower (s : String) : String := String.mk (s.data.map Char.toLower)

/-- Python slice `s[:n]`. -/
def pyTake (s : String) (n : Nat) : String := String.mk (s.data.take n)

/-- Python `len(s)`. -/
def pyLen (s : String) : Nat := s.data.length

/-- Whitespace stripped by Python `str.strip()`. -/
def pySpaceChar (c : Char) : Bool :=
  c = ' ' || c = '\t' || c = '\n' || c = '\r' || c = '\x0b' || c = '\x0c'

/-- Python `s.strip()`. -/
def pyStrip (s : String) : String :=
  String.mk (((s.data.dropWhile pySpaceChar).reverse.dropWhile pySpaceChar).reverse)

/-- Python `str.capitalize()`: first char upper-cased, the rest lower-cased. -/
def pyCapitalize (s : String) : String :=
  match s.data with
  | [] => ""
  | c :: rest => String.mk (c.toUpper :: rest.map Char.toLower)

/-! ## Message and tool-call model (langchain messages as used by the graph) -/

/-- A tool-call descriptor carried by an AI message: name, args dict, id. -/
structure ToolCall where
  name : String
  args : List (String × PyVal)
  id : String


/-- A message of the log. `kind` is the message class ("ai", "human", "tool",
"system"); messages of classes without a `tool_calls` attribute are embedded
with an empty `tool_calls` list, which is exactly how `route_specialist`
treats them (`not hasattr(msg, "tool_calls") or not msg.tool_calls`). -/
structure Msg where
  kind : String
  content : String
  tool_calls : List ToolCall


/-! ## Router (agent/graph.py, route_specialist) -/

/-- The fixed successor chain used by `route_specialist` both for the
force-advance branch and for the `complete_phase` branch
(architect → intelligence → integrator → validator → reporter, any other
specialist falls to reporter). -/
def phaseSuccessor (p : String) : String :=
  if p = "architect" then "intelligence"
  else if p = "intelligence" then "integrator"
  else if p = "integrator" then "validator"
  else if p = "validator" then "reporter"
  else "reporter"

/-- Loop detection of `route_specialist`: iterate the last 10 messages from
the newest backwards, counting messages with no tool calls, stopping at the
first message that has one. -/
def countTrailingNonTool (messages : List Msg) : Nat :=
  ((messages.reverse.take 10).takeWhile (fun m => m.tool_calls.isEmpty)).length

/-- The completion-signal scan of `route_specialist`: walk the last message's
tool calls in order; `complete_phase` maps the active specialist to its
successor, `complete_validation` and `emergency_exit` map to reporter;
if no signal occurs, route to the tools node. -/
def routeToolCalls (active : String) : List ToolCall → String
  | [] => "tools"
  | tc :: rest =>
    if tc.name = "complete_phase" then phaseSuccessor active
    else if tc.name = "complete_validation" then "reporter"
    else if tc.name = "emergency_exit" then "reporter"
    else routeToolCalls active rest

/-- `route_specialist(state)` from agent/graph.py. `active` is
`state.active_specialist`. -/
def routeSpecialist (messages : List Msg) (active : String) : String :=
  match messages.getLast? with
  | Option.none => "recon"
  | some lastMsg =>
    if countTrailingNonTool messages ≥ 5 then phaseSuccessor active
    else if lastMsg.tool_calls.isEmpty then active
    else routeToolCalls active lastMsg.tool_calls

/-! ## Action schema (agent/schemas/action_schema.py) -/

/-- The modelled Python exception classes relevant to the decoder. -/
inductive PyError where
  | valueError        -- a plain ValueError (the configuration error of get_llm)
  | validationError   -- pydantic ValidationError, a subclass of ValueError
  | importFailure     -- ImportError
  | otherError        -- any other Exception (transport failures, TypeError, ...)
deriving DecidableEq

/-- Which of the modelled exception classes an `except ValueError` clause
catches: `ValidationError` subclasses `ValueError` in both pydantic major
versions, so it is caught as well. -/
def catchesValueError : PyError → Bool
  | .valueError => true
  | .validationError => true
  | _ => false

/-- The `AgentAction` pydantic model: the structured decision output. -/
structure AgentAction where
  thought : String := "Processing action..."
  action_type : String
  tool_name : Option String := Option.none
  tool_args : Option (List (String × PyVal)) := Option.none
  human_question : Option String := Option.none
  phase_summary : Option String := Option.none

/-- Python truthiness of an optional string field (`None` and "" are falsy). -/
def optStrTruthy : Option String → Bool
  | some s => !s.isEmpty
  | Option.none => false

/-- The `patterns` check of `validate_action` for `grep_codebase`:
`tool_args` must be a truthy dict whose `patterns` entry is a truthy list. -/
def grepArgsOk (args : Option (List (String × PyVal))) : Bool :=
  match args with
  | Option.none => false
  | some kvs =>
    if kvs.isEmpty then false
    else
      match pyGet kvs "patterns" with
      | some (.list ps) => !ps.isEmpty
      | _ => false

/-- The `validate_action` model validator of `AgentAction`. A raise of
`ValueError` inside a pydantic validator surfaces as `ValidationError`. -/
def validateAction (a : AgentAction) : Except PyError AgentAction :=
  if a.action_type = "call_tool" then
    if !optStrTruthy a.tool_name then .error .validationError
    else if a.tool_name = some "grep_codebase" && !grepArgsOk a.tool_args then
      .error .validationError
    else .ok { a with tool_args := some (a.tool_args.getD []) }
  else if a.action_type = "ask_human" then
    if !optStrTruthy a.human_question then .error .validationError else .ok a
  else if a.action_type = "finish_phase" then
    if !optStrTruthy a.phase_summary then .error .validationError else .ok a
  else .ok a

/-- The `Literal` values admitted for `action_type`. -/
def actionTypes : List String := ["call_tool", "ask_human", "finish_phase"]

/-- Pydantic construction `AgentAction(...)`: the `Literal` check on
`action_type` followed by the `validate_action` validator; a failure raises
`ValidationError`. -/
def mkAction (a : AgentAction) : Except PyError AgentAction :=
  if actionTypes.contains a.action_type then validateAction a
  else .error .validationError

/-! ## smart_fuzzy_parse (agent/nodes/specialists.py) -/

/-- Python slicing `v[:n]`: defined on strings and lists, a `TypeError`
otherwise. -/
def pySlice (v : PyVal) (n : Nat) : Except PyError PyVal :=
  match v with
  | .str s => .ok (.str (pyTake s n))
  | .list xs => .ok (.list (xs.take n))
  | _ => .error .otherError

/-- Pydantic coercion of a value into a `str` field. -/
def pyToStr : PyVal → Except PyError String
  | .str s => .ok s
  | _ => .error .validationError

/-- Pydantic coercion of a value into an `Optional[str]` field. -/
def pyToOptStr : PyVal → Except PyError (Option String)
  | .str s => .ok (some s)
  | .none => .ok Option.none
  | _ => .error .validationError

/-- Pydantic coercion of a value into an `Optional[Dict]` field. -/
def pyToOptDict : PyVal → Except PyError (Option (List (String × PyVal)))
  | .dict kvs => .ok (some kvs)
  | .none => .ok Option.none
  | _ => .error .validationError

/-- The JSON-recovery branch of `smart_fuzzy_parse` (specialists.py lines
166-174), applied to the dict `json.loads` produced: every field is taken
from the parsed data and the result is rebuilt through the pydantic
constructor. -/
def recoverFromJson (kvs : List (String × PyVal)) (role : String) :
    Except PyError AgentAction := do
  let thoughtV ← pySlice (pyGetD kvs "thought" (.str "Continuing analysis")) 500
  let thought ← pyToStr thoughtV
  let atype ← pyToStr (pyGetD kvs "action_type" (.str "finish_phase"))
  let toolName ← pyToOptStr (pyGetD kvs "tool_name" PyVal.none)
  let toolArgs ← pyToOptDict (pyGetD kvs "tool_args" (.dict []))
  let humanQ ← pyToOptStr (pyGetD kvs "human_question" PyVal.none)
  let summary ← pyToOptStr (pyGetD kvs "phase_summary" (.str (role ++ " complete")))
  mkAction { thought := thought, action_type := atype, tool_name := toolName,
             tool_args := toolArgs, human_question := humanQ,
             phase_summary := summary }

/-- The fixed infrastructure vocabulary of the grep heuristic. -/
def infrastructureKeywords : List String :=
  ["docker", "kubernetes", "lambda", "ec2", "s3", "dynamodb",
   "openai", "anthropic", "bedrock", "stripe", "twilio", "sendgrid"]

/-- The completion vocabulary of the finish heuristic. -/
def completionKeywords : List String :=
  ["complete", "finish", "done", "phase 1", "phase 2", "phase 3"]

/-- Pattern 3 and the default of the heuristic tier: completion vocabulary
synthesizes a finish with a truncated summary, anything else the generic
partial finish. -/
def finishHeuristic (text role : String) : Except PyError AgentAction :=
  if completionKeywords.any (fun kw => pyIn kw (pyLower text)) then
    mkAction { thought := pyTake text 300, action_type := "finish_phase",
               phase_summary := some (if pyLen text > 100 then pyTake text 500
                                      else pyCapitalize role ++ " analysis complete") }
  else
    mkAction { thought := "Unable to parse " ++ role ++ " output clearly",
               action_type := "finish_phase",
               phase_summary := some (pyCapitalize role ++ " completed. Output: "
                                       ++ pyTake text 200) }

/-- Pattern 2 of the heuristic tier: a read-file mention plus an
extension-matched filename token (`fileMatch`, the `re.search` outcome of
the external `re` library) synthesizes a hardcoded `read_file` call;
otherwise fall through to pattern 3. -/
def readHeuristic (text role : String) (fileMatch : Option String) :
    Except PyError AgentAction :=
  if pyIn "read" (pyLower text) &&
      (pyIn ".py" text || pyIn ".txt" text || pyIn ".yml" text) then
    match fileMatch with
    | some path =>
      mkAction { thought := pyTake text 300, action_type := "call_tool",
                 tool_name := some "read_file",
                 tool_args := some [("file_path", .str path)] }
    | Option.none => finishHeuristic text role
  else finishHeuristic text role

/-- The heuristic tier of `smart_fuzzy_parse` (specialists.py lines
178-228), applied when the text is not recoverable JSON. Pattern 1: a
grep/search mention together with the substring "pattern" and at least one
infrastructure keyword synthesizes a hardcoded `grep_codebase` call on the
matched keywords (at most 5); otherwise patterns 2 and 3 follow in order. -/
def heuristicParse (text role : String) (fileMatch : Option String) :
    Except PyError AgentAction :=
  if ((pyIn "grep" (pyLower text) || pyIn "search for" (pyLower text)) &&
        pyIn "pattern" (pyLower text)) &&
      !(infrastructureKeywords.filter (fun kw => pyIn kw (pyLower text))).isEmpty then
    mkAction { thought := pyTake text 300, action_type := "call_tool",
               tool_name := some "grep_codebase",
               tool_args := some [("patterns",
                 .list (((infrastructureKeywords.filter
                           (fun kw => pyIn kw (pyLower text))).take 5).map .str))] }
  else readHeuristic text role fileMatch

/-- `smart_fuzzy_parse(response_text, role)`. `jsonParsed` is the outcome of
`json.loads` on the fence-cleaned text (`Option.none` when it raises) and
`fileMatch` the `re.search` outcome of pattern 2; both are external library
primitives. A `.error` result is an exception propagating out of the
function (the surrounding try catches `json.JSONDecodeError` and
`ValueError` — hence also pydantic `ValidationError` — but a slicing
`TypeError` escapes). -/
def smartFuzzyParse (jsonParsed : Option PyVal) (fileMatch : Option String)
    (text : String) (role : String) : Except PyError AgentAction :=
  if !pyTruthy (.str text) || pyLen (pyStrip text) < 5 then
    mkAction { thought := "Empty response from " ++ role,
               action_type := "finish_phase",
               phase_summary := some (pyCapitalize role
                                       ++ " completed with limited findings") }
  else
    match jsonParsed with
    | some (.dict kvs) =>
      if (pyGet kvs "thought").isSome then
        match recoverFromJson kvs role with
        | .ok a => .ok a
        | .error e =>
          if catchesValueError e then heuristicParse text role fileMatch
          else .error e
      else heuristicParse text role fileMatch
    | _ => heuristicParse text role fileMatch

/-! ## run_specialist (agent/nodes/specialists.py) -/

/-- The partial state-update dict a specialist node returns. A field the dict
does not contain is `Option.none` here and leaves the corresponding state
field unchanged when the update is merged. -/
structure StateUpdate where
  messages : List Msg
  active_specialist : String
  fuzzy_parse_count : Option Nat

/-- Python `a or b` on an optional string (used for tool-call defaults). -/
def pyOrStr (o : Option String) (d : String) : String :=
  match o with
  | some s => if s.isEmpty then d else s
  | Option.none => d

/-- The tool-name cleanup of `_convert_action_to_message`:
`tool_name.split(":")[-1] if ":" in tool_name else tool_name`. -/
def cleanToolName (s : String) : String :=
  if pyIn ":" s then String.mk ((s.data.reverse.takeWhile (fun c => c ≠ ':')).reverse)
  else s

/-- `_convert_action_to_message(action, role, state)`: build the AI message
carrying the action as a tool call. The returned dict has no
`fuzzy_parse_count` key. `uuid.uuid4()` is modelled by the opaque id
"uuid4"; no claim depends on ids. -/
def convertActionToMessage (a : AgentAction) (role : String) : StateUpdate :=
  let tool_calls : List ToolCall :=
    if a.action_type = "call_tool" then
      match a.tool_name with
      | some n =>
        if !n.isEmpty then
          [ { name := cleanToolName n, args := a.tool_args.getD [], id := "uuid4" } ]
        else []
      | Option.none => []
    else if a.action_type = "ask_human" then
      [ { name := "ask_human",
          args := [("question", .str (pyOrStr a.human_question "Confirm finding?"))],
          id := "uuid4" } ]
    else if a.action_type = "finish_phase" then
      [ { name := "complete_phase",
          args := [("summary", .str (pyOrStr a.phase_summary "Phase Complete."))],
          id := "uuid4" } ]
    else []
  { messages := [ { kind := "ai", content := a.thought, tool_calls := tool_calls } ],
    active_specialist := role, fuzzy_parse_count := Option.none }

/-- Outcome of `try_constrained_decoding`, which converts every failure into
an `ImportError` or a plain `Exception` before it escapes. -/
inductive Tier1Outcome where
  | ok (a : AgentAction)
  | importFailed
  | failed

/-- Outcome of one `llm_with_schema.invoke` attempt of tier 2. -/
inductive Tier2Outcome where
  | ok (a : AgentAction)
  | noneResult
  | raised (e : PyError)

/-- The tier-2 attempt outcomes that fall through to the next attempt: a
`None` result, or an exception not caught by the leading
`except ValueError` clause. -/
def tier2FallsThrough : Tier2Outcome → Bool
  | .ok _ => false
  | .noneResult => true
  | .raised e => !catchesValueError e

/-- The external generative oracle and library environment of one
`run_specialist` call. `apiKeyPresent` is the configuration read by
`get_llm` (which raises `ValueError` when the key is missing); `tier2` is
the outcome of each of the three structured attempts; `tier3Raw` the
raw-text invoke of tier 3 (`.error` when it raises, otherwise the extracted
response text, "" when the response carries no text content);
`tier3Json`/`tier3FileMatch` are the library primitives `smart_fuzzy_parse`
consults on that text. -/
structure DecodeOracle where
  apiKeyPresent : Bool
  tier1 : Tier1Outcome
  tier2 : Nat → Tier2Outcome
  tier3Raw : Except PyError String
  tier3Json : Option PyVal
  tier3FileMatch : Option String

/-- Tier 4 of `run_specialist`: the forced finish ("technical difficulties"),
which also resets the fuzzy counter to 0. The `Nat` component threads the
count of generative-oracle invocations made so far. -/
def tier4Result (role : String) (calls : Nat) : Except PyError StateUpdate × Nat :=
  let fallback : AgentAction :=
    { thought := "Technical difficulties in " ++ role, action_type := "finish_phase",
      phase_summary := some (pyCapitalize role ++ " completed with partial findings.") }
  (.ok { convertActionToMessage fallback role with fuzzy_parse_count := some 0 }, calls)

/-- Tier 3 of `run_specialist`: one raw-text generation passed through
`smart_fuzzy_parse`; every exception of the block is absorbed by its
`except Exception` and falls through to tier 4; a success increments the
fuzzy counter. -/
def tier3Result (o : DecodeOracle) (role : String) (fuzzyCount : Nat) (calls : Nat) :
    Except PyError StateUpdate × Nat :=
  match o.tier3Raw with
  | .error _ => tier4Result role (calls + 1)
  | .ok text =>
    if text.isEmpty then tier4Result role (calls + 1)
    else
      match smartFuzzyParse o.tier3Json o.tier3FileMatch text role with
      | .ok a =>
        (.ok { convertActionToMessage a role with
               fuzzy_parse_count := some (fuzzyCount + 1) }, calls + 1)
      | .error _ => tier4Result role (calls + 1)

/-- One structured attempt of tier 2. The first matching clause of the
source is `except ValueError: raise`, and pydantic `ValidationError`
subclasses `ValueError`, so both re-raise; the dedicated
`except ValidationError` retry clause below it is unreachable. Any other
exception, and a `None` result, fall through to the next attempt. -/
def tier2Attempt (out : Tier2Outcome) (role : String) (calls : Nat)
    (fallthrough : Nat → Except PyError StateUpdate × Nat) :
    Except PyError StateUpdate × Nat :=
  match out with
  | .ok a => (.ok (convertActionToMessage a role), calls + 1)
  | .noneResult => fallthrough (calls + 1)
  | .raised e =>
    if catchesValueError e then (.error e, calls + 1)
    else fallthrough (calls + 1)

/-- Tier 2 of `run_specialist`: `for attempt in range(3)`, unrolled, falling
through to tier 3. -/
def tier2Result (o : DecodeOracle) (role : String) (fuzzyCount : Nat) (calls : Nat) :
    Except PyError StateUpdate × Nat :=
  tier2Attempt (o.tier2 0) role calls (fun c1 =>
    tier2Attempt (o.tier2 1) role c1 (fun c2 =>
      tier2Attempt (o.tier2 2) role c2 (fun c3 =>
        tier3Result o role fuzzyCount c3)))

/-- `run_specialist(state, prompt_template, role)`, as a function of the
fuzzy counter the state carries at entry, the role, and the external
oracle. The first component is the returned update dict (`.error e` when
the exception `e` propagates out of the node); the second counts
generative-oracle invocations performed during the call. -/
def runSpecialist (fuzzyCount : Nat) (role : String) (o : DecodeOracle) :
    Except PyError StateUpdate × Nat :=
  if fuzzyCount ≥ 3 then
    (.ok { messages := [ { kind := "ai", content := role ++ " exhausted retry budget",
                           tool_calls := [ { name := "complete_phase",
                                             args := [("summary",
                                               .str (pyCapitalize role
                                                 ++ " completed with partial findings due to parsing errors."))],
                                             id := "uuid4" } ] } ],
           active_specialist := role, fuzzy_parse_count := some 0 }, 0)
  else if !o.apiKeyPresent then
    (.error .valueError, 0)
  else
    match o.tier1 with
    | .ok a => (.ok (convertActionToMessage a role), 1)
    | _ => tier2Result o role fuzzyCount 1

/-- Modelled from the spec: the WorkflowState fields a specialist node
touches (spec section 3); the defining module agent/state.py (class
AgentState) is not under src/. `messages` is the ordered append-only log,
merged by appending the update's messages; a scalar field is overwritten by
an update that contains it and untouched by one that does not (the
partial-update merge of the graph framework). -/
structure AgentStateModel where
  messages : List Msg
  active_specialist : String
  fuzzy_parse_count : Nat

/-- Merge a node's partial update into the state. -/
def applyUpdate (s : AgentStateModel) (u : StateUpdate) : AgentStateModel :=
  { messages := s.messages ++ u.messages,
    active_specialist := u.active_specialist,
    fuzzy_parse_count := u.fuzzy_parse_count.getD s.fuzzy_parse_count }

/-! ## TaskBroker (core/task_broker.py) -/

/-- Escaping of one char under `json.dumps` (only the two chars that occur
in this repository's payload values need escaping). -/
def jsonEscapeChar (c : Char) : List Char :=
  if c = '\\' then ['\\', '\\']
  else if c = '"' then ['\\', '"']
  else [c]

/-- A JSON string literal as `json.dumps` renders it. -/
def jsonQuote (s : String) : String :=
  String.mk ('"' :: ((s.data.map jsonEscapeChar).flatten ++ ['"']))

/-- Lexicographic code-point comparison of char lists: the string `≤` under
which Python's `sorted` puts `str` keys. -/
def charListLe : List Char → List Char → Bool
  | [], _ => true
  | _ :: _, [] => false
  | a :: xs, b :: ys =>
    if a.toNat < b.toNat then true
    else if b.toNat < a.toNat then false
    else charListLe xs ys

/-- Code-point `≤` on strings. -/
def strLeB (a b : String) : Bool := charListLe a.data b.data

/-- The key order `sort_keys=True` sorts dict entries by. -/
def keyLe (a b : String × PyVal) : Prop := strLeB a.1 b.1 = true

instance : DecidableRel keyLe := fun a b =>
  inferInstanceAs (Decidable (strLeB a.1 b.1 = true))

mutual

/-- Recursively sort every dict of a value by key, the normalization
`sort_keys=True` amounts to. -/
def sortPy : PyVal → PyVal
  | .str s => .str s
  | .int n => .int n
  | .bool b => .bool b
  | .none => .none
  | .list xs => .list (sortPyList xs)
  | .dict kvs => .dict (List.insertionSort keyLe (sortPyKvs kvs))

/-- Sort the values of a list elementwise. -/
def sortPyList : List PyVal → List PyVal
  | [] => []
  | x :: xs => sortPy x :: sortPyList xs

/-- Sort the values of an association list elementwise. -/
def sortPyKvs : List (String × PyVal) → List (String × PyVal)
  | [] => []
  | (k, v) :: rest => (k, sortPy v) :: sortPyKvs rest

end

mutual

/-- Serialization of an (already normalized) value in the format of
`json.dumps` with its default separators ", " and ": ". -/
def jsonRender : PyVal → String
  | .str s => jsonQuote s
  | .int n => toString n
  | .bool b => if b then "true" else "false"
  | .none => "null"
  | .list xs => "[" ++ jsonRenderList xs ++ "]"
  | .dict kvs => "\x7b" ++ jsonRenderKvs kvs ++ "\x7d"

/-- Comma-joined rendering of list elements. -/
def jsonRenderList : List PyVal → String
  | [] => ""
  | [x] => jsonRender x
  | x :: xs => jsonRender x ++ ", " ++ jsonRenderList xs

/-- Comma-joined rendering of dict entries. -/
def jsonRenderKvs : List (String × PyVal) → String
  | [] => ""
  | [(k, v)] => jsonQuote k ++ ": " ++ jsonRender v
  | (k, v) :: rest => jsonQuote k ++ ": " ++ jsonRender v ++ ", " ++ jsonRenderKvs rest

end

/-- `json.dumps(v, sort_keys=True)`. -/
def jsonDumps (v : PyVal) : String := jsonRender (sortPy v)

/-- `TaskBroker._task_key(task_type, payload)`:
`json.dumps({"type": task_type, "payload": payload}, sort_keys=True)` piped
through `hashlib.md5(...).hexdigest()`. MD5 is a fixed deterministic
function of the serialized string and no claim here concerns its collisions,
so the key is modelled by the serialized string itself. -/
def taskKey (taskType : String) (payload : List (String × PyVal)) : String :=
  jsonDumps (.dict [("type", .str taskType), ("payload", .dict payload)])

/-- The return value of `execute_safe_grep` (agent/tools/search.py): by its
two return statements it is either the no-valid-patterns dict or the
results dict, in both cases a dict holding a "results" key. What the
filesystem scan finds is external. -/
inductive GrepRet where
  | noValid (badResults : List PyVal)
  | scanned (results : List PyVal) (filesScanned : Nat)

/-- The dict `execute_safe_grep` returns for each outcome. -/
def grepRetToPy : GrepRet → PyVal
  | .noValid rs => .dict [("results", .list rs),
                          ("error", .str "No valid patterns"),
                          ("files_scanned", .int 0)]
  | .scanned rs n => .dict [("results", .list rs), ("files_scanned", .int (n : Int))]

/-- Python `str.splitlines` restricted to "\n" boundaries (the only
terminator the model needs): a trailing newline opens no extra line. -/
def splitlinesAux : List Char → List Char → List String
  | [], acc => if acc.isEmpty then [] else [String.mk acc.reverse]
  | c :: rest, acc =>
    if c = '\n' then String.mk acc.reverse :: splitlinesAux rest []
    else splitlinesAux rest (c :: acc)

/-- `s.splitlines()`. -/
def pySplitlines (s : String) : List String := splitlinesAux s.data []

/-- The filesystem-facing operations the broker dispatches
(agent/tools/search.py), external to the broker: `grep` is the outcome of
`execute_safe_grep` on the `patterns` argument, `listRaw` the raw text of
`execute_list_files` on the `directory` argument. Both are deterministic
for a fixed repository tree. -/
structure BrokerEnv where
  grep : PyVal → GrepRet
  listRaw : PyVal → String

/-- The mutable state of a `TaskBroker`: its `SharedCache` store. -/
structure BrokerState where
  cache : List (String × PyVal)

/-- `SharedCache.get` (`None` when the key is absent). -/
def cacheGet (c : List (String × PyVal)) (k : String) : Option PyVal := pyGet c k

/-- `SharedCache.set` (`store[key] = value`). -/
def cacheSet : List (String × PyVal) → String → PyVal → List (String × PyVal)
  | [], k, v => [(k, v)]
  | (k', v') :: rest, k, v =>
    if k' = k then (k, v) :: rest else (k', v') :: cacheSet rest k v

/-- The execute section of `TaskBroker.submit`: dispatch on the task type
("grep", "list_files", anything else an error dict). -/
def executeTask (env : BrokerEnv) (taskType : String)
    (payload : List (String × PyVal)) : PyVal :=
  if taskType = "grep" then
    grepRetToPy (env.grep (pyGetD payload "patterns" (.list [])))
  else if taskType = "list_files" then
    .dict [("files",
      .list ((pySplitlines (env.listRaw (pyGetD payload "directory" (.str ".")))).map .str))]
  else .dict [("error", .str ("Unknown task type: " ++ taskType))]

/-- `TaskBroker.submit(task_type, payload)`: return the cached value when
`if cached:` holds (Python truthiness, a missing key giving falsy `None`),
otherwise execute, cache and return. The third component records whether
the underlying operation executed. -/
def submit (env : BrokerEnv) (st : BrokerState) (taskType : String)
    (payload : List (String × PyVal)) : PyVal × BrokerState × Bool :=
  match cacheGet st.cache (taskKey taskType payload) with
  | some v =>
    if pyTruthy v then (v, st, false)
    else (executeTask env taskType payload,
          { cache := cacheSet st.cache (taskKey taskType payload)
                       (executeTask env taskType payload) }, true)
  | Option.none =>
    (executeTask env taskType payload,
     { cache := cacheSet st.cache (taskKey taskType payload)
                  (executeTask env taskType payload) }, true)

/-! ## Scan-status recording (lambda_entrypoint.py, handle_scan) -/

/-- How one `handle_scan` run ends: the stream completes, the wall-clock
guard fires, an `AskHuman` decode raises `HumanInputNeeded`, or another
exception reaches the outer handler. -/
inductive StreamOutcome where
  | completed
  | timeout
  | humanInput (q : String)
  | failed (msg : String)

/-- One `update_scan_status` write: the recorded status, message and (when
passed) pending question. -/
structure StatusRecord where
  status : String
  message : String
  question : String

/-- The sequence of `update_scan_status` writes `handle_scan` performs:
the initial "Cloning repository..." record, the failure record when the
clone fails, otherwise one RUNNING record per streamed step (with the
step's message preview) followed by the record of the outcome. -/
def handleScanStatusTrail (cloneOk : Bool) (stepPreviews : List String)
    (outcome : StreamOutcome) : List StatusRecord :=
  { status := "RUNNING", message := "Cloning repository...", question := "" } ::
  (if !cloneOk then
    [ { status := "FAILED", message := "Failed to clone repository", question := "" } ]
   else
     (stepPreviews.map (fun p => { status := "RUNNING", message := p, question := "" })) ++
     (match outcome with
      | .completed =>
        [ { status := "COMPLETED", message := "Scan complete", question := "" } ]
      | .timeout =>
        [ { status := "PAUSED", message := "Timeout - will auto-resume", question := "" } ]
      | .humanInput q =>
        [ { status := "PAUSED", message := "Waiting for user input", question := q } ]
      | .failed m =>
        [ { status := "FAILED", message := "Error: " ++ pyTake m 200, question := "" } ]))

/-! ## Concrete instances used by witnesses and counterexamples -/

/-- A message without tool calls. -/
def plainMsg : Msg := { kind := "ai", content := "Let me think about this.", tool_calls := [] }

/-- A message carrying an ordinary (non-signal) tool call. -/
def grepMsg : Msg :=
  { kind := "ai", content := "Searching.",
    tool_calls := [ { name := "grep_codebase",
                      args := [("patterns", .list [.str "docker"])], id := "1" } ] }

/-- The finish action a well-behaved structured decode produces. -/
def t2SuccessAction : AgentAction :=
  { action_type := "finish_phase", phase_summary := some "Findings so far." }

/-- A benign oracle: tier 1 unavailable, tier 2 succeeding at once. -/
def benignOracle : DecodeOracle :=
  { apiKeyPresent := true, tier1 := .importFailed,
    tier2 := fun _ => .ok t2SuccessAction,
    tier3Raw := .ok "", tier3Json := Option.none, tier3FileMatch := Option.none }

/-- The same oracle with tier 1 succeeding directly. -/
def t1Oracle : DecodeOracle := { benignOracle with tier1 := .ok t2SuccessAction }

/-- An oracle whose structured attempts raise pydantic `ValidationError`. -/
def brokenT2Oracle : DecodeOracle :=
  { benignOracle with tier2 := fun _ => .raised .validationError }

/-- A state captured mid-scan with two fuzzy parses on the counter. -/
def midScanState : AgentStateModel :=
  { messages := [], active_specialist := "architect", fuzzy_parse_count := 2 }

/-- The fixed tool allow-list: the names of SPECIALIST_TOOLS
(agent/tools/specialist_tools.py). -/
def toolAllowList : List String :=
  ["grep_codebase", "read_file", "ask_human", "check_price_knowledge",
   "calculate_cost", "complete_validation"]

/-- The spec's example free text for the grep heuristic. -/
def specSearchText : String := "I will search for docker and s3 configuration"

/-- The same text with the word "patterns", which the heuristic requires. -/
def specSearchTextPattern : String :=
  "I will search for patterns docker and s3 configuration"

/-- A free text that does drive the grep heuristic. -/
def grepHeuristicText : String := "grep pattern docker"

/-- The action the grep heuristic synthesizes from `grepHeuristicText`. -/
def grepHeuristicAction : AgentAction :=
  { thought := pyTake grepHeuristicText 300, action_type := "call_tool",
    tool_name := some "grep_codebase",
    tool_args := some [("patterns", .list [.str "docker"])] }

/-- A response text that is a valid JSON object naming a tool outside the
allow-list. -/
def evilJsonText : String :=
  "\x7b\"thought\": \"x\", \"action_type\": \"call_tool\", \"tool_name\": \"evil_tool\"\x7d"

/-- The dict `json.loads` produces from `evilJsonText`. -/
def evilJson : PyVal :=
  .dict [("thought", .str "x"), ("action_type", .str "call_tool"),
         ("tool_name", .str "evil_tool")]

/-- A fixed broker environment for witnesses: a scan finding nothing. -/
def brokerEnvW : BrokerEnv := { grep := fun _ => .scanned [] 0, listRaw := fun _ => "" }

/-- A grep payload. -/
def brokerPayload : List (String × PyVal) := [("patterns", .list [.str "docker"])]

/-- A two-key payload and its key-reordered twin. -/
def orderedPayload : List (String × PyVal) := [("a", .str "1"), ("b", .str "2")]

/-- The same map with the insertion order reversed. -/
def reorderedPayload : List (String × PyVal) := [("b", .str "2"), ("a", .str "1")]

/-! ## Theorems -/

/-- `route_specialist` on a log whose last entry is known. -/
theorem routeSpecialist_eq_of_getLast (messages : List Msg) (active : String)
    (last : Msg) (hm : messages.getLast? = some last) :
    routeSpecialist messages active =
      (if countTrailingNonTool messages ≥ 5 then phaseSuccessor active
       else if last.tool_calls.isEmpty then active
       else routeToolCalls active last.tool_calls) := by
  unfold routeSpecialist
  rw [hm]

/-- Appending a message that carries a tool call resets the trailing
no-tool-call count to zero. -/
theorem countTrailingNonTool_append_toolcall (messages : List Msg) (m : Msg)
    (hm : m.tool_calls ≠ []) : countTrailingNonTool (messages ++ [m]) = 0 := by
  unfold countTrailingNonTool
  rw [List.reverse_append]
  simp only [List.reverse_cons, List.reverse_nil, List.nil_append, List.cons_append,
    List.take_succ_cons, List.takeWhile_cons]
  have : m.tool_calls.isEmpty = false := by
    cases h : m.tool_calls with
    | nil => exact absurd h hm
    | cons a l => rfl
  simp [this]

/-- One signal-free tool call is skipped by the scan. -/
theorem routeToolCalls_cons_no_signal (active : String) (tc : ToolCall)
    (rest : List ToolCall)
    (h1 : tc.name ≠ "complete_phase") (h2 : tc.name ≠ "complete_validation")
    (h3 : tc.name ≠ "emergency_exit") :
    routeToolCalls active (tc :: rest) = routeToolCalls active rest := by
  conv_lhs => unfold routeToolCalls
  rw [if_neg h1, if_neg h2, if_neg h3]

/-- The signal scan returns "tools" when no tool call bears a signal name. -/
theorem routeToolCalls_no_signal (active : String) (tcs : List ToolCall)
    (h : ∀ tc ∈ tcs, tc.name ≠ "complete_phase" ∧ tc.name ≠ "complete_validation" ∧
         tc.name ≠ "emergency_exit") :
    routeToolCalls active tcs = "tools" := by
  induction tcs with
  | nil => rfl
  | cons tc rest ih =>
    obtain ⟨h1, h2, h3⟩ := h tc (List.mem_cons_self tc rest)
    rw [routeToolCalls_cons_no_signal active tc rest h1 h2 h3]
    exact ih (fun tc' htc' => h tc' (List.mem_cons_of_mem tc htc'))

/-- The signal scan skips signal-free tool calls. -/
theorem routeToolCalls_skip (active : String) (pre rest : List ToolCall)
    (h : ∀ tc ∈ pre, tc.name ≠ "complete_phase" ∧ tc.name ≠ "complete_validation" ∧
         tc.name ≠ "emergency_exit") :
    routeToolCalls active (pre ++ rest) = routeToolCalls active rest := by
  induction pre with
  | nil => rfl
  | cons tc pre' ih =>
    obtain ⟨h1, h2, h3⟩ := h tc (List.mem_cons_self tc pre')
    rw [List.cons_append, routeToolCalls_cons_no_signal active tc (pre' ++ rest) h1 h2 h3]
    exact ih (fun tc' htc' => h tc' (List.mem_cons_of_mem tc htc'))

/-- C2: for every message log and specialist phase, when the trailing
count of tool-call-free messages over the last 10 reaches 5 the router
force-advances to the phase's fixed successor regardless of content, and
when that count is below 5 and the last message has no tool calls the
router returns the phase itself. -/
theorem router_loop_detection (messages : List Msg) (active : String)
    (_hactive : active = "architect" ∨ active = "intelligence" ∨
                active = "integrator" ∨ active = "validator") :
    (countTrailingNonTool messages ≥ 5 →
       routeSpecialist messages active = phaseSuccessor active) ∧
    (∀ last, messages.getLast? = some last → last.tool_calls = [] →
       countTrailingNonTool messages < 5 →
       routeSpecialist messages active = active) := by
  constructor
  · intro h5
    cases hm : messages.getLast? with
    | none =>
      rw [List.getLast?_eq_none_iff] at hm
      subst hm
      simp [countTrailingNonTool] at h5
    | some last =>
      rw [routeSpecialist_eq_of_getLast messages active last hm, if_pos h5]
  · intro last hm hempty hlt
    rw [routeSpecialist_eq_of_getLast messages active last hm,
        if_neg (by omega), if_pos (by simp [hempty])]

/-- C2 witness: with `active_phase = architect`, five trailing tool-call-free
messages force-advance to intelligence, while only three trailing
tool-call-free messages (below the threshold) keep the router at architect. -/
theorem router_loop_detection_witness :
    routeSpecialist (List.replicate 5 plainMsg) "architect" = "intelligence" ∧
    routeSpecialist [grepMsg, plainMsg, plainMsg, plainMsg] "architect" = "architect" :=
  ⟨(router_loop_detection (List.replicate 5 plainMsg) "architect" (Or.inl rfl)).1
     (by decide),
   (router_loop_detection [grepMsg, plainMsg, plainMsg, plainMsg] "architect"
     (Or.inl rfl)).2 plainMsg rfl rfl (by decide)⟩

/-- C7: when the last message carries tool calls, the first completion
signal among them decides the route: `complete_phase` maps the active phase
to its fixed successor (architect → intelligence → integrator → validator →
reporter, in that order), `complete_validation` maps straight to reporter,
`emergency_exit` maps any phase to reporter, and a last message whose tool
calls bear no signal routes to the tools node. -/
theorem router_completion_signals (active c i : String) (messages : List Msg)
    (pre post : List ToolCall) (args : List (String × PyVal))
    (hpre : ∀ tc ∈ pre, tc.name ≠ "complete_phase" ∧ tc.name ≠ "complete_validation" ∧
            tc.name ≠ "emergency_exit") :
    (phaseSuccessor "architect" = "intelligence" ∧
     phaseSuccessor "intelligence" = "integrator" ∧
     phaseSuccessor "integrator" = "validator" ∧
     phaseSuccessor "validator" = "reporter") ∧
    routeSpecialist
      (messages ++ [⟨"ai", c, pre ++ ⟨"complete_phase", args, i⟩ :: post⟩]) active
      = phaseSuccessor active ∧
    routeSpecialist
      (messages ++ [⟨"ai", c, pre ++ ⟨"complete_validation", args, i⟩ :: post⟩]) active
      = "reporter" ∧
    routeSpecialist
      (messages ++ [⟨"ai", c, pre ++ ⟨"emergency_exit", args, i⟩ :: post⟩]) active
      = "reporter" ∧
    (pre ≠ [] →
      routeSpecialist (messages ++ [⟨"ai", c, pre⟩]) active = "tools") := by
  have hsig : ∀ (nm : String),
      routeSpecialist (messages ++ [⟨"ai", c, pre ++ ⟨nm, args, i⟩ :: post⟩]) active
        = routeToolCalls active (⟨nm, args, i⟩ :: post) := by
    intro nm
    have hne : (pre ++ (⟨nm, args, i⟩ : ToolCall) :: post) ≠ [] := by
      simp
    rw [routeSpecialist_eq_of_getLast _ _ _ (List.getLast?_concat _),
        if_neg (by rw [countTrailingNonTool_append_toolcall _ _ hne]; omega),
        if_neg (by simp [List.isEmpty_iff, hne]),
        routeToolCalls_skip active pre _ hpre]
  refine ⟨⟨rfl, rfl, rfl, rfl⟩, ?_, ?_, ?_, ?_⟩
  · rw [hsig "complete_phase"]; rfl
  · rw [hsig "complete_validation"]; rfl
  · rw [hsig "emergency_exit"]; rfl
  · intro hne
    rw [routeSpecialist_eq_of_getLast _ _ _ (List.getLast?_concat _),
        if_neg (by rw [countTrailingNonTool_append_toolcall _ _ hne]; omega),
        if_neg (by simpa [List.isEmpty_iff] using hne),
        routeToolCalls_no_signal active pre hpre]

/-- C7 witness: from the validator phase, a sole `complete_phase` call routes
to reporter; an ordinary grep call among no signals routes to tools. -/
theorem router_completion_signals_witness :
    routeSpecialist [⟨"ai", "done", [⟨"complete_phase", [], "1"⟩]⟩] "validator"
      = phaseSuccessor "validator" ∧
    routeSpecialist
      [⟨"ai", "go", [⟨"grep_codebase", [("patterns", PyVal.list [.str "s3"])], "1"⟩]⟩]
      "validator" = "tools" := by
  have h1 := router_completion_signals "validator" "done" "1" [] [] [] []
    (by intro tc htc; cases htc)
  have h2 := router_completion_signals "validator" "go" "1" []
    [⟨"grep_codebase", [("patterns", PyVal.list [.str "s3"])], "1"⟩] [] []
    (by
      intro tc htc
      rw [List.mem_singleton] at htc
      subst htc
      refine ⟨?_, ?_, ?_⟩ <;> decide)
  exact ⟨h1.2.1, h2.2.2.2.2 (by simp)⟩

/-- C3: when the fuzzy-retry counter has reached 3 before the call, the
decoder skips tiers 1-3 entirely — the result does not depend on the
oracle and no generative invocation is performed (the call count is 0) —
and immediately returns the forced phase-completion update, resetting the
counter to 0. -/
theorem decoder_recursion_guard (n : Nat) (role : String) (o : DecodeOracle)
    (hn : n ≥ 3) :
    runSpecialist n role o =
      (.ok { messages := [ { kind := "ai",
                             content := role ++ " exhausted retry budget",
                             tool_calls := [ { name := "complete_phase",
                                               args := [("summary",
                                                 .str (pyCapitalize role
                                                   ++ " completed with partial findings due to parsing errors."))],
                                               id := "uuid4" } ] } ],
             active_specialist := role, fuzzy_parse_count := some 0 }, 0) := by
  unfold runSpecialist
  rw [if_pos hn]

/-- C3 witness: the guard fires at counter 3 for the architect, whatever the
oracle would have answered. -/
theorem decoder_recursion_guard_witness :
    runSpecialist 3 "architect" benignOracle =
      (.ok { messages := [ { kind := "ai",
                             content := "architect exhausted retry budget",
                             tool_calls := [ { name := "complete_phase",
                                               args := [("summary",
                                                 .str "Architect completed with partial findings due to parsing errors.")],
                                               id := "uuid4" } ] } ],
             active_specialist := "architect", fuzzy_parse_count := some 0 }, 0) :=
  decoder_recursion_guard 3 "architect" benignOracle (by decide)

/-- C1 (evaluation at the failing input): with credentials present, tier 1
unavailable and the first structured attempt raising a pydantic
`ValidationError`, `run_specialist` re-raises that error out of the node —
the clause `except ValueError: raise` precedes `except ValidationError` and
`ValidationError` subclasses `ValueError`, so the dedicated retry handler
never runs — although a schema-validation failure is not the configuration
`ValueError` of `get_llm`. -/
theorem validation_error_escapes_decoder :
    runSpecialist 0 "architect" brokenT2Oracle = (.error .validationError, 2) ∧
    PyError.validationError ≠ PyError.valueError :=
  ⟨rfl, by decide⟩

/-- C6 counterexample: with the fuzzy counter at 2 before the call, a tier-2
success returns an update carrying no `fuzzy_parse_count` key, so the
merged state still carries 2 — a successful non-heuristic decode does not
reset the counter to 0. -/
theorem t2_success_keeps_fuzzy_count :
    (runSpecialist 2 "architect" benignOracle).1 =
      .ok (convertActionToMessage t2SuccessAction "architect") ∧
    (convertActionToMessage t2SuccessAction "architect").fuzzy_parse_count
      = Option.none ∧
    (applyUpdate midScanState
        (convertActionToMessage t2SuccessAction "architect")).fuzzy_parse_count = 2 :=
  ⟨rfl, rfl, rfl⟩

/-- Helper: a falling-through tier-2 attempt passes control to the next. -/
theorem tier2Attempt_fallsThrough (out : Tier2Outcome) (role : String)
    (calls : Nat) (f : Nat → Except PyError StateUpdate × Nat)
    (h : tier2FallsThrough out = true) :
    tier2Attempt out role calls f = f (calls + 1) := by
  cases out with
  | ok a => simp [tier2FallsThrough] at h
  | noneResult => rfl
  | raised e =>
    cases hce : catchesValueError e with
    | false => simp [tier2Attempt, hce]
    | true => simp [tier2FallsThrough, hce] at h

/-- C6 amended: a successful tier-1 or tier-2 decode leaves the fuzzy-retry
counter unchanged — the update it returns has no `fuzzy_parse_count` key,
so after the merge the counter equals its prior value (it is reset to 0
only by the recursion guard and the tier-4 fallback, and incremented by
tier 3). -/
theorem structured_success_leaves_fuzzy_count (n : Nat) (role : String)
    (o : DecodeOracle) (a : AgentAction) (s : AgentStateModel)
    (hn : n < 3) (hk : o.apiKeyPresent = true)
    (h : o.tier1 = .ok a ∨
         ((∀ b, o.tier1 ≠ .ok b) ∧ ∃ i, i < 3 ∧ o.tier2 i = .ok a ∧
            ∀ j, j < i → tier2FallsThrough (o.tier2 j) = true)) :
    (runSpecialist n role o).1 = .ok (convertActionToMessage a role) ∧
    (applyUpdate s (convertActionToMessage a role)).fuzzy_parse_count
      = s.fuzzy_parse_count := by
  refine ⟨?_, rfl⟩
  unfold runSpecialist
  rw [if_neg (by omega), if_neg (by simp [hk])]
  rcases h with h1 | ⟨hnot, i, hi3, hok, hfall⟩
  · rw [h1]
  · cases ht : o.tier1 with
    | ok b => exact absurd ht (hnot b)
    | importFailed =>
      show (tier2Result o role n 1).1 = _
      unfold tier2Result
      interval_cases i
      · rw [hok]; rfl
      · rw [tier2Attempt_fallsThrough _ _ _ _ (hfall 0 (by omega)), hok]; rfl
      · rw [tier2Attempt_fallsThrough _ _ _ _ (hfall 0 (by omega)),
            tier2Attempt_fallsThrough _ _ _ _ (hfall 1 (by omega)), hok]; rfl
    | failed =>
      show (tier2Result o role n 1).1 = _
      unfold tier2Result
      interval_cases i
      · rw [hok]; rfl
      · rw [tier2Attempt_fallsThrough _ _ _ _ (hfall 0 (by omega)), hok]; rfl
      · rw [tier2Attempt_fallsThrough _ _ _ _ (hfall 0 (by omega)),
            tier2Attempt_fallsThrough _ _ _ _ (hfall 1 (by omega)), hok]; rfl

/-- C6 amended witness: a direct tier-1 success at counter 0 leaves the
merged counter at its prior value 2. -/
theorem structured_success_leaves_fuzzy_count_witness :
    (runSpecialist 0 "architect" t1Oracle).1 =
      .ok (convertActionToMessage t2SuccessAction "architect") ∧
    (applyUpdate midScanState
        (convertActionToMessage t2SuccessAction "architect")).fuzzy_parse_count
      = midScanState.fuzzy_parse_count :=
  structured_success_leaves_fuzzy_count 0 "architect" t1Oracle t2SuccessAction
    midScanState (by decide) rfl (Or.inl rfl)

/-- Helper: a pydantic construction that succeeds preserves `action_type`
and `tool_name` (the validator only normalizes `tool_args`). -/
theorem mkAction_preserves (a b : AgentAction) (h : mkAction a = .ok b) :
    b.action_type = a.action_type ∧ b.tool_name = a.tool_name := by
  unfold mkAction validateAction at h
  split at h
  · split at h
    · split at h
      · cases h
      · split at h
        · cases h
        · simp only [Except.ok.injEq] at h
          subst h
          exact ⟨rfl, rfl⟩
    · split at h
      · split at h
        · cases h
        · simp only [Except.ok.injEq] at h
          subst h
          exact ⟨rfl, rfl⟩
      · split at h
        · split at h
          · cases h
          · simp only [Except.ok.injEq] at h
            subst h
            exact ⟨rfl, rfl⟩
        · simp only [Except.ok.injEq] at h
          subst h
          exact ⟨rfl, rfl⟩
  · cases h

/-- C4 counterexample: `smart_fuzzy_parse` on a response text that is a
valid AgentAction-shaped JSON object returns a `CallTool` whose name is
taken verbatim from the text and lies outside the fixed allow-list. -/
theorem json_recovery_passes_tool_name :
    (smartFuzzyParse (some evilJson) Option.none evilJsonText "architect").map
      (fun a => (a.action_type, a.tool_name)) =
      .ok ("call_tool", some "evil_tool") ∧
    toolAllowList.contains "evil_tool" = false :=
  ⟨rfl, by decide⟩

/-- C4 amended: when the response text is not recoverable JSON (the
heuristic branches of `smart_fuzzy_parse`), every `CallTool` the parser
returns carries a hardcoded tool name, `grep_codebase` or `read_file`, both
members of the fixed allow-list — on that path tool names are never taken
from the text. (The JSON-recovery branch, by contrast, passes `tool_name`
through verbatim.) -/
theorem heuristic_tool_names_in_allow_list (text role : String)
    (fm : Option String) (a : AgentAction)
    (h : smartFuzzyParse Option.none fm text role = .ok a)
    (ht : a.action_type = "call_tool") :
    ∃ n, a.tool_name = some n ∧ (n = "grep_codebase" ∨ n = "read_file") ∧
      toolAllowList.contains n = true := by
  have finish_case : ∀ hf : finishHeuristic text role = .ok a, False := by
    intro hf
    unfold finishHeuristic at hf
    split at hf <;>
      · have := (mkAction_preserves _ _ hf).1
        rw [ht] at this
        simp at this
  unfold smartFuzzyParse at h
  split at h
  · have := (mkAction_preserves _ _ h).1
    rw [ht] at this
    simp at this
  · change heuristicParse text role fm = .ok a at h
    unfold heuristicParse at h
    split at h
    · have := mkAction_preserves _ _ h
      exact ⟨"grep_codebase", by rw [this.2], Or.inl rfl, by decide⟩
    · unfold readHeuristic at h
      split at h
      · split at h
        · have := mkAction_preserves _ _ h
          exact ⟨"read_file", by rw [this.2], Or.inr rfl, by decide⟩
        · exact absurd h finish_case
      · exact absurd h finish_case

/-- C4 amended witness: the text "grep pattern docker" drives the grep
heuristic, and the theorem places its tool name in the allow-list. -/
theorem heuristic_tool_names_witness :
    ∃ n, grepHeuristicAction.tool_name = some n ∧
      (n = "grep_codebase" ∨ n = "read_file") ∧
      toolAllowList.contains n = true :=
  heuristic_tool_names_in_allow_list grepHeuristicText "architect" Option.none
    grepHeuristicAction rfl rfl

/-- C5 counterexample: on the spec's example text — which contains no
"pattern" substring — the grep heuristic does not fire and
`smart_fuzzy_parse` returns the default forced finish, not a `CallTool`
for `grep_codebase`. -/
theorem search_example_not_calltool :
    (smartFuzzyParse Option.none Option.none specSearchText "architect").map
      (fun a => (a.action_type, a.tool_name, a.tool_args)) =
      .ok ("finish_phase", Option.none, Option.none) := rfl

/-- C5 amended: the grep heuristic additionally requires the substring
"pattern": the spec's example text yields the generic `FinishPhase`, while
the same request phrased with the word "patterns" yields
`CallTool(grep_codebase, patterns=["docker", "s3"])` exactly. -/
theorem search_text_grep_heuristic :
    (smartFuzzyParse Option.none Option.none specSearchText "architect").map
      (fun a => a.action_type) = .ok "finish_phase" ∧
    (smartFuzzyParse Option.none Option.none specSearchTextPattern "architect").map
      (fun a => (a.action_type, a.tool_name, a.tool_args)) =
      .ok ("call_tool", some "grep_codebase",
           some [("patterns", PyVal.list [.str "docker", .str "s3"])]) :=
  ⟨rfl, rfl⟩

/-- Helper: after `store[key] = value`, `get key` returns the value. -/
theorem cacheGet_cacheSet (c : List (String × PyVal)) (k : String) (v : PyVal) :
    cacheGet (cacheSet c k v) k = some v := by
  induction c with
  | nil => simp [cacheGet, cacheSet, pyGet]
  | cons kv rest ih =>
    obtain ⟨k', v'⟩ := kv
    unfold cacheSet
    split
    · simp [cacheGet, pyGet]
    next hk => simpa [cacheGet, pyGet, hk] using ih

/-- Helper: every result the execute section produces is a dict with at
least one key, hence truthy under the `if cached:` test. -/
theorem executeTask_truthy (env : BrokerEnv) (t : String)
    (p : List (String × PyVal)) : pyTruthy (executeTask env t p) = true := by
  unfold executeTask
  split
  · cases env.grep (pyGetD p "patterns" (.list [])) <;> rfl
  · split <;> rfl

/-- C8: two successive `submit` calls with the identical (task type,
payload) pair, against a broker whose session cache does not yet hold the
task's key, execute the underlying operation exactly once — the first call
executes, the second performs no execution — and return equal results (the
second is served from the cache). -/
theorem submit_dedup (env : BrokerEnv) (st : BrokerState) (t : String)
    (p : List (String × PyVal))
    (h : cacheGet st.cache (taskKey t p) = Option.none) :
    (submit env st t p).2.2 = true ∧
    (submit env (submit env st t p).2.1 t p).2.2 = false ∧
    (submit env (submit env st t p).2.1 t p).1 = (submit env st t p).1 := by
  have h1 : submit env st t p =
      (executeTask env t p,
       { cache := cacheSet st.cache (taskKey t p) (executeTask env t p) }, true) := by
    unfold submit
    rw [h]
  have h2 : submit env
      { cache := cacheSet st.cache (taskKey t p) (executeTask env t p) } t p =
      (executeTask env t p,
       { cache := cacheSet st.cache (taskKey t p) (executeTask env t p) }, false) := by
    unfold submit
    rw [cacheGet_cacheSet]
    simp [executeTask_truthy]
  rw [h1, h2]
  exact ⟨rfl, rfl, rfl⟩

/-- C8 witness: a concrete grep task against a fresh broker. -/
theorem submit_dedup_witness :
    cacheGet (BrokerState.mk []).cache (taskKey "grep" brokerPayload) = Option.none ∧
    ((submit brokerEnvW ⟨[]⟩ "grep" brokerPayload).2.2 = true ∧
     (submit brokerEnvW (submit brokerEnvW ⟨[]⟩ "grep" brokerPayload).2.1 "grep"
        brokerPayload).2.2 = false ∧
     (submit brokerEnvW (submit brokerEnvW ⟨[]⟩ "grep" brokerPayload).2.1 "grep"
        brokerPayload).1 = (submit brokerEnvW ⟨[]⟩ "grep" brokerPayload).1) :=
  ⟨rfl, submit_dedup brokerEnvW ⟨[]⟩ "grep" brokerPayload rfl⟩

/-- Helper: code-point `≤` on char lists is total. -/
theorem charListLe_total : ∀ xs ys : List Char,
    charListLe xs ys = true ∨ charListLe ys xs = true := by
  intro xs
  induction xs with
  | nil => intro ys; left; rfl
  | cons a xs ih =>
    intro ys
    cases ys with
    | nil => right; rfl
    | cons b ys =>
      unfold charListLe
      by_cases hab : a.toNat < b.toNat
      · left; rw [if_pos hab]
      · by_cases hba : b.toNat < a.toNat
        · right; rw [if_pos hba]
        · rw [if_neg hab, if_neg hba, if_neg hba, if_neg hab]
          exact ih ys

/-- Helper: code-point `≤` on char lists is transitive. -/
theorem charListLe_trans : ∀ xs ys zs : List Char,
    charListLe xs ys = true → charListLe ys zs = true →
    charListLe xs zs = true := by
  intro xs
  induction xs with
  | nil => intro ys zs h1 h2; rfl
  | cons a xs ih =>
    intro ys zs h1 h2
    cases ys with
    | nil => exact absurd h1 (by simp [charListLe])
    | cons b ys =>
      cases zs with
      | nil => exact absurd h2 (by simp [charListLe])
      | cons c zs =>
        unfold charListLe at h1 h2 ⊢
        by_cases hab : a.toNat < b.toNat
        · by_cases hbc : b.toNat < c.toNat
          · rw [if_pos (by omega)]
          · rw [if_neg hbc] at h2
            by_cases hcb : c.toNat < b.toNat
            · rw [if_pos hcb] at h2; exact absurd h2 (by decide)
            · rw [if_pos (by omega)]
        · rw [if_neg hab] at h1
          by_cases hba : b.toNat < a.toNat
          · rw [if_pos hba] at h1; exact absurd h1 (by decide)
          · rw [if_neg hba] at h1
            by_cases hbc : b.toNat < c.toNat
            · rw [if_pos (by omega)]
            · rw [if_neg hbc] at h2
              by_cases hcb : c.toNat < b.toNat
              · rw [if_pos hcb] at h2; exact absurd h2 (by decide)
              · rw [if_neg hcb] at h2
                rw [if_neg (by omega), if_neg (by omega)]
                exact ih ys zs h1 h2

/-- Helper: code-point `≤` on char lists is antisymmetric. -/
theorem charListLe_antisymm : ∀ xs ys : List Char,
    charListLe xs ys = true → charListLe ys xs = true → xs = ys := by
  intro xs
  induction xs with
  | nil =>
    intro ys h1 h2
    cases ys with
    | nil => rfl
    | cons b ys => exact absurd h2 (by simp [charListLe])
  | cons a xs ih =>
    intro ys h1 h2
    cases ys with
    | nil => exact absurd h1 (by simp [charListLe])
    | cons b ys =>
      unfold charListLe at h1 h2
      by_cases hab : a.toNat < b.toNat
      · rw [if_neg (by omega), if_pos hab] at h2
        exact absurd h2 (by decide)
      · rw [if_neg hab] at h1
        by_cases hba : b.toNat < a.toNat
        · rw [if_pos hba] at h1
          exact absurd h1 (by decide)
        · rw [if_neg hba] at h1
          rw [if_neg hba, if_neg hab] at h2
          have hc : a = b := Char.eq_of_val_eq (UInt32.ext (by
            have e1 : a.toNat = a.val.toNat := rfl
            have e2 : b.toNat = b.val.toNat := rfl
            omega))
          rw [hc, ih ys h1 h2]

/-- Helper: code-point `≤` on strings is antisymmetric. -/
theorem strLeB_antisymm (x y : String) (h1 : strLeB x y = true)
    (h2 : strLeB y x = true) : x = y := by
  cases x with
  | mk dx =>
    cases y with
    | mk dy => exact congrArg String.mk (charListLe_antisymm dx dy h1 h2)

/-- Helper: `sortPyKvs` only rewrites the values in place. -/
theorem sortPyKvs_eq_map (l : List (String × PyVal)) :
    sortPyKvs l = l.map (fun kv => (kv.1, sortPy kv.2)) := by
  induction l with
  | nil => rfl
  | cons kv rest ih =>
    obtain ⟨k, v⟩ := kv
    simp [sortPyKvs, ih]

/-- Helper: sorting by key is invariant under permutation of an association
list whose keys are distinct. -/
theorem insertionSort_perm_invariant (l₁ l₂ : List (String × PyVal))
    (hp : l₁.Perm l₂) (hnd : (l₁.map Prod.fst).Nodup) :
    List.insertionSort keyLe l₁ = List.insertionSort keyLe l₂ := by
  haveI : IsTotal (String × PyVal) keyLe :=
    ⟨fun a b => charListLe_total a.1.data b.1.data⟩
  haveI : IsTrans (String × PyVal) keyLe :=
    ⟨fun a b c h1 h2 => charListLe_trans a.1.data b.1.data c.1.data h1 h2⟩
  haveI : IsAntisymm (String × PyVal) (fun a b => keyLe a b ∧ a.1 ≠ b.1) :=
    ⟨fun a b h1 h2 => absurd (strLeB_antisymm a.1 b.1 h1.1 h2.1) h1.2⟩
  have hp₁ := List.perm_insertionSort keyLe l₁
  have hp₂ := List.perm_insertionSort keyLe l₂
  have hperm : (List.insertionSort keyLe l₁).Perm (List.insertionSort keyLe l₂) :=
    hp₁.trans (hp.trans hp₂.symm)
  have hnd₁ : ((List.insertionSort keyLe l₁).map Prod.fst).Nodup :=
    ((hp₁.map Prod.fst).nodup_iff).mpr hnd
  have hnd₂ : ((List.insertionSort keyLe l₂).map Prod.fst).Nodup :=
    ((hperm.map Prod.fst).nodup_iff).mp hnd₁
  have hpw₁ : List.Pairwise (fun a b : String × PyVal => keyLe a b ∧ a.1 ≠ b.1)
      (List.insertionSort keyLe l₁) :=
    (List.sorted_insertionSort keyLe l₁).and (List.pairwise_map.mp hnd₁)
  have hpw₂ : List.Pairwise (fun a b : String × PyVal => keyLe a b ∧ a.1 ≠ b.1)
      (List.insertionSort keyLe l₂) :=
    (List.sorted_insertionSort keyLe l₂).and (List.pairwise_map.mp hnd₂)
  exact List.eq_of_perm_of_sorted hperm hpw₁ hpw₂

/-- Helper: `_task_key` depends on the payload only through its key-value
map contents. -/
theorem taskKey_perm (t : String) (p₁ p₂ : List (String × PyVal))
    (hp : p₁.Perm p₂) (hnd : (p₁.map Prod.fst).Nodup) :
    taskKey t p₁ = taskKey t p₂ := by
  have hinner : List.insertionSort keyLe (sortPyKvs p₁) =
      List.insertionSort keyLe (sortPyKvs p₂) := by
    apply insertionSort_perm_invariant
    · rw [sortPyKvs_eq_map, sortPyKvs_eq_map]
      exact hp.map _
    · rw [sortPyKvs_eq_map]
      simpa [List.map_map, Function.comp] using hnd
  unfold taskKey jsonDumps
  simp only [sortPy, sortPyKvs, hinner]

/-- C10: the broker's cache key is a deterministic function of the task
type and the payload's map contents — payloads equal as key-value maps
(same distinct keys bound to the same values, in any insertion order)
produce the same `_task_key`, and a second `submit` with the reordered
payload is served from the first call's cache entry without executing. -/
theorem task_key_map_equality (env : BrokerEnv) (st : BrokerState) (t : String)
    (p₁ p₂ : List (String × PyVal)) (hp : p₁.Perm p₂)
    (hnd : (p₁.map Prod.fst).Nodup) :
    taskKey t p₁ = taskKey t p₂ ∧
    (cacheGet st.cache (taskKey t p₁) = Option.none →
      (submit env (submit env st t p₁).2.1 t p₂).2.2 = false ∧
      (submit env (submit env st t p₁).2.1 t p₂).1 = (submit env st t p₁).1) := by
  have hk := taskKey_perm t p₁ p₂ hp hnd
  refine ⟨hk, fun h => ?_⟩
  have h1 : submit env st t p₁ =
      (executeTask env t p₁,
       { cache := cacheSet st.cache (taskKey t p₁) (executeTask env t p₁) }, true) := by
    unfold submit
    rw [h]
  have h2 : submit env
      { cache := cacheSet st.cache (taskKey t p₁) (executeTask env t p₁) } t p₂ =
      (executeTask env t p₁,
       { cache := cacheSet st.cache (taskKey t p₁) (executeTask env t p₁) }, false) := by
    unfold submit
    rw [← hk, cacheGet_cacheSet]
    simp [executeTask_truthy]
  rw [h1, h2]
  exact ⟨rfl, rfl⟩

/-- C10 witness: the two-key payload in both insertion orders. -/
theorem task_key_map_equality_witness :
    taskKey "grep" orderedPayload = taskKey "grep" reorderedPayload ∧
    ((submit brokerEnvW (submit brokerEnvW ⟨[]⟩ "grep" orderedPayload).2.1 "grep"
        reorderedPayload).2.2 = false ∧
     (submit brokerEnvW (submit brokerEnvW ⟨[]⟩ "grep" orderedPayload).2.1 "grep"
        reorderedPayload).1 = (submit brokerEnvW ⟨[]⟩ "grep" orderedPayload).1) := by
  have h := task_key_map_equality brokerEnvW ⟨[]⟩ "grep" orderedPayload
    reorderedPayload
    (show orderedPayload.Perm reorderedPayload from
      List.Perm.swap ("b", PyVal.str "2") ("a", PyVal.str "1") [])
    (by decide)
  exact ⟨h.1, h.2 rfl⟩

/-- C9 counterexample: the status `handle_scan` records for an `AskHuman`
suspension is the plain "PAUSED" — not "PAUSED_HUMAN" — and the wall-clock
timeout suspension records the very same "PAUSED" status — not the distinct
"PAUSED_TIMEOUT": the two suspension kinds are told apart by message and
pending question, not by the status value. -/
theorem paused_status_not_split :
    (handleScanStatusTrail true [] (.humanInput "What is the monthly API budget?")).map
      (fun r => r.status) = ["RUNNING", "PAUSED"] ∧
    (handleScanStatusTrail true [] .timeout).map (fun r => r.status)
      = ["RUNNING", "PAUSED"] ∧
    ("PAUSED" : String) ≠ "PAUSED_HUMAN" ∧ ("PAUSED" : String) ≠ "PAUSED_TIMEOUT" :=
  ⟨rfl, rfl, by decide, by decide⟩

/-- C9 amended: every status value `handle_scan` records lies in
{RUNNING, PAUSED, COMPLETED, FAILED}; an `AskHuman` suspension records
status "PAUSED" with the pending question stored, and the wall-clock
timeout suspension records the same status "PAUSED" with no question,
distinguished by the message text. -/
theorem scan_status_vocabulary (cloneOk : Bool) (previews : List String)
    (outcome : StreamOutcome) :
    (∀ r ∈ handleScanStatusTrail cloneOk previews outcome,
       r.status = "RUNNING" ∨ r.status = "PAUSED" ∨ r.status = "COMPLETED" ∨
       r.status = "FAILED") ∧
    (∀ q, outcome = .humanInput q → cloneOk = true →
       ({ status := "PAUSED", message := "Waiting for user input",
          question := q } : StatusRecord) ∈
         handleScanStatusTrail cloneOk previews outcome) ∧
    (outcome = .timeout → cloneOk = true →
       ({ status := "PAUSED", message := "Timeout - will auto-resume",
          question := "" } : StatusRecord) ∈
         handleScanStatusTrail cloneOk previews outcome) := by
  refine ⟨?_, ?_, ?_⟩
  · intro r hr
    unfold handleScanStatusTrail at hr
    rcases List.mem_cons.mp hr with h | h
    · subst h; left; rfl
    · cases cloneOk with
      | false =>
        rw [if_pos (show (!false) = true from rfl), List.mem_singleton] at h
        subst h
        simp
      | true =>
        simp only [Bool.not_true, Bool.false_eq_true, if_false, List.mem_append] at h
        rcases h with hmem | hmem
        · obtain ⟨p, _, hp⟩ := List.mem_map.mp hmem
          rw [← hp]
          left; rfl
        · cases outcome <;> (rw [List.mem_singleton] at hmem; subst hmem; simp)
  · intro q hq hc
    subst hq
    subst hc
    unfold handleScanStatusTrail
    simp
  · intro hq hc
    subst hq
    subst hc
    unfold handleScanStatusTrail
    simp

/-- C9 amended witness: a human-input suspension stores the pending question
under status "PAUSED". -/
theorem scan_status_vocabulary_witness :
    ({ status := "PAUSED", message := "Waiting for user input",
       question := "What is the monthly API budget?" } : StatusRecord) ∈
      handleScanStatusTrail true [] (.humanInput "What is the monthly API budget?") :=
  (scan_status_vocabulary true [] (.humanInput "What is the monthly API budget?")).2.1
    "What is the monthly API budget?" rfl rfl

end CDA
